import Mathlib

/-
  Shallow embedding of the postkast sources (src/settings.rs, src/main.rs).
  Pure configuration values are Lean structures; the network-facing parts of
  list_inbox/main are modelled by explicit oracles describing the responses of
  the IMAP session, with the sequence of attempted session actions and the
  produced stdout text made explicit.
-/

namespace Postkast

/-! ## Constants (settings.rs lines 9-30) -/

/-- Default server name (`DEFAULT_SERVER_NAME`). -/
def DEFAULT_SERVER_NAME : String := "default"

/-- Default server host (`DEFAULT_SERVER_HOST`). -/
def DEFAULT_SERVER_HOST : String := "localhost"

/-- Default server port number for SMTP protocol. -/
def DEFAULT_SMTP_PORT : Nat := 25

/-- Default server port number for POP3 protocol. -/
def DEFAULT_POP3_PORT : Nat := 110

/-- Default server port number for IMAP protocol. -/
def DEFAULT_IMAP_PORT : Nat := 143

/-- Default SMTP over TLS port. -/
def DEFAULT_SMTP_TLS_PORT : Nat := 465

/-- Default POP3 over TLS port. -/
def DEFAULT_POP3_TLS_PORT : Nat := 995

/-- Default IMAP over TLS port. -/
def DEFAULT_IMAP_TLS_PORT : Nat := 993

/-! ## Configuration data model (settings.rs lines 32-79) -/

/-- TLS configuration: `struct Tls { port: u16 }`. -/
structure Tls where
  port : Nat
deriving DecidableEq, Repr

/-- IMAP endpoint: `struct Imap { host, port, tls: Option<Tls> }`. -/
structure Imap where
  host : String
  port : Nat
  tls : Option Tls
deriving DecidableEq, Repr

/-- SMTP endpoint: `struct Smtp { host, port, tls: Option<Tls> }`. -/
structure Smtp where
  host : String
  port : Nat
  tls : Option Tls
deriving DecidableEq, Repr

/-- Credentials: untagged enum, `None` or `UsernameAndPassword`. -/
inductive Credentials where
  | None : Credentials
  | UsernameAndPassword (username : String) (password : String) : Credentials
deriving DecidableEq, Repr

/-- One server (account) configuration: `struct Server`. -/
structure Server where
  name : String
  smtp : Smtp
  imap : Imap
  credentials : Credentials
deriving DecidableEq, Repr

/-- Application settings: ordered sequence of servers. -/
structure Settings where
  servers : List Server
deriving DecidableEq, Repr

/-- `Settings::servers()`: iterator over the configured servers, in insertion
order (settings.rs lines 127-129). -/
def Settings.serversIter (s : Settings) : List Server := s.servers

/-! ## Accessors and resolution rules -/

/-- `Imap::port()` (settings.rs lines 218-224): the effective connection port
is the TLS override's port when present, otherwise the plain `port` field. -/
def Imap.effectivePort (s : Imap) : Nat :=
  match s.tls with
  | some tls => tls.port
  | Option.none => s.port

/-- `Imap::tls()` (settings.rs lines 227-229). -/
def Imap.tlsRef (s : Imap) : Option Tls := s.tls

/-- `Imap::default()` (settings.rs lines 200-208). The host field is built
from `DEFAULT_SERVER_NAME`, exactly as in the source. -/
def Imap.defaultImap : Imap :=
  { host := DEFAULT_SERVER_NAME, port := DEFAULT_IMAP_PORT, tls := Option.none }

/-- `Smtp::default()` (settings.rs lines 259-267). -/
def Smtp.defaultSmtp : Smtp :=
  { host := "localhost", port := DEFAULT_SMTP_PORT, tls := Option.none }

/-- `Server::default()` (settings.rs lines 133-142). -/
def Server.defaultServer : Server :=
  { name := DEFAULT_SERVER_NAME
    smtp := Smtp.defaultSmtp
    imap := Imap.defaultImap
    credentials := Credentials.None }

/-! ## Builder methods (settings.rs lines 166-257): the Rust `&mut self`
builders become value-returning updates. -/

/-- `Imap::with_host`. -/
def Imap.with_host (s : Imap) (host : String) : Imap := { s with host := host }

/-- `Imap::with_port`. -/
def Imap.with_port (s : Imap) (port : Nat) : Imap := { s with port := port }

/-- `Imap::with_tls`. -/
def Imap.with_tls (s : Imap) (tls : Tls) : Imap := { s with tls := some tls }

/-- `Server::with_name`. -/
def Server.with_name (s : Server) (name : String) : Server := { s with name := name }

/-- `Server::with_imap_host_and_tls_port`. -/
def Server.with_imap_host_and_tls_port (s : Server) (host : String) (port : Nat) : Server :=
  { s with imap := (s.imap.with_host host).with_tls { port := port } }

/-- `Server::with_username_and_password`. -/
def Server.with_username_and_password (s : Server) (username password : String) : Server :=
  { s with credentials := Credentials.UsernameAndPassword username password }

/-- The sample server built inside `Settings::print_default`
(settings.rs lines 99-103). -/
def sampleServer : Server :=
  ((Server.defaultServer.with_name "GMail").with_imap_host_and_tls_port
      "imap.google.com" 993).with_username_and_password "username" "password"

/-- The sample settings value serialized by `Settings::print_default`
(settings.rs line 104). -/
def sampleSettings : Settings := { servers := [sampleServer] }

/-! ## UTF-8 decoding (`std::str::from_utf8(...).ok()` in main.rs).
Bytes are modelled as `Nat` values below 256; the decoder follows the RFC 3629
validation Rust's `from_utf8` implements: rejects overlong encodings,
surrogate code points and code points above `0x10FFFF`. -/

/-- Is the byte a UTF-8 continuation byte (`0x80..0xBF`)? -/
def isCont (b : Nat) : Bool := 0x80 ≤ b && b < 0xC0

/-- Decode a byte list as UTF-8 into a list of characters; `Option.none` on any
invalid sequence, matching Rust's `from_utf8(...).ok()`. -/
def utf8DecodeChars : List Nat → Option (List Char)
  | [] => some []
  | b :: rest =>
    if b < 0x80 then
      (utf8DecodeChars rest).map (fun cs => Char.ofNat b :: cs)
    else if b < 0xC2 then Option.none
    else if b < 0xE0 then
      match rest with
      | b2 :: rest2 =>
        if isCont b2 then
          (utf8DecodeChars rest2).map
            (fun cs => Char.ofNat ((b - 0xC0) * 64 + (b2 - 0x80)) :: cs)
        else Option.none
      | [] => Option.none
    else if b < 0xF0 then
      match rest with
      | b2 :: b3 :: rest3 =>
        if (if b = 0xE0 then 0xA0 ≤ b2 && b2 < 0xC0
            else if b = 0xED then 0x80 ≤ b2 && b2 < 0xA0
            else isCont b2) && isCont b3 then
          (utf8DecodeChars rest3).map
            (fun cs => Char.ofNat ((b - 0xE0) * 4096 + (b2 - 0x80) * 64 + (b3 - 0x80)) :: cs)
        else Option.none
      | _ => Option.none
    else if b < 0xF5 then
      match rest with
      | b2 :: b3 :: b4 :: rest4 =>
        if (if b = 0xF0 then 0x90 ≤ b2 && b2 < 0xC0
            else if b = 0xF4 then 0x80 ≤ b2 && b2 < 0x90
            else isCont b2) && isCont b3 && isCont b4 then
          (utf8DecodeChars rest4).map
            (fun cs => Char.ofNat
              ((b - 0xF0) * 262144 + (b2 - 0x80) * 4096 + (b3 - 0x80) * 64 + (b4 - 0x80)) :: cs)
        else Option.none
      | _ => Option.none
    else Option.none

/-- `from_utf8(bytes).ok()`: decoded string, or `Option.none` on invalid UTF-8. -/
def from_utf8 (bytes : List Nat) : Option String :=
  (utf8DecodeChars bytes).map fun cs => String.mk cs

/-! ## Addresses and envelopes (imap_proto types used by main.rs).
Each field carries raw bytes when present. -/

/-- `imap_proto::types::Address`: four independently optional byte fields. -/
structure Address where
  name : Option (List Nat)
  adl : Option (List Nat)
  mailbox : Option (List Nat)
  host : Option (List Nat)
deriving DecidableEq, Repr

/-- Message envelope: the fields `list_inbox` reads. -/
structure Envelope where
  date : Option (List Nat)
  subject : Option (List Nat)
  efrom : Option (List Address)
  eto : Option (List Address)
  cc : Option (List Address)
  bcc : Option (List Address)
deriving DecidableEq, Repr

/-- One fetched message record (`imap::types::Fetch`): optionally carries an
envelope (`message.envelope()`). -/
structure Fetch where
  envelope : Option Envelope
deriving DecidableEq, Repr

/-! ## Address rendering (`print_addresses`, main.rs lines 39-54).
Printing is modelled by returning the text written to stdout. -/

/-- Rendering of one address sub-field inside `print_addresses`: a present,
UTF-8-decodable field prints quoted, anything else prints `NIL`. -/
def renderField (field : Option (List Nat)) : String :=
  match field.bind from_utf8 with
  | some s => "\"" ++ s ++ "\""
  | Option.none => "NIL"

/-- Per-address output of the loop body of `print_addresses`: an opening
parenthesis, the four sub-fields separated by spaces, then a closing
parenthesis and the trailing list separator. -/
def renderAddress (a : Address) : String :=
  "(" ++ renderField a.name ++ " " ++ renderField a.adl ++ " "
      ++ renderField a.mailbox ++ " " ++ renderField a.host ++ "), "

/-- `print_addresses(head, addresses)`: the header, each address rendered in
order, then a newline. -/
def print_addresses (head : String) (addresses : List Address) : String :=
  head ++ String.join (addresses.map renderAddress) ++ "\n"

/-! ## Envelope projection (message loop of `list_inbox`, main.rs lines 85-107). -/

/-- Output produced for one message's envelope: the From/To/Cc/Bcc lines for
the populated address fields, then Date and Subject lines when present and
UTF-8-decodable. -/
def renderEnvelope (e : Envelope) : String :=
  (match e.efrom with
   | some addrs => print_addresses "From: " addrs
   | Option.none => "")
  ++ (match e.eto with
      | some addrs => print_addresses "To: " addrs
      | Option.none => "")
  ++ (match e.cc with
      | some addrs => print_addresses "Cc: " addrs
      | Option.none => "")
  ++ (match e.bcc with
      | some addrs => print_addresses "Bcc: " addrs
      | Option.none => "")
  ++ (match e.date.bind from_utf8 with
      | some d => "Date: " ++ d ++ "\n"
      | Option.none => "")
  ++ (match e.subject.bind from_utf8 with
      | some s => "Subject: " ++ s ++ "\n"
      | Option.none => "")

/-- Output of one iteration of the message loop: the separator line is printed
for every message; the envelope block only when the message has one. -/
def renderMessage (m : Fetch) : String :=
  "---\n" ++ match m.envelope with
  | some e => renderEnvelope e
  | Option.none => ""

/-- Output of the whole message loop over a fetched batch. -/
def renderMessages (msgs : List Fetch) : String :=
  String.join (msgs.map renderMessage)

/-! ## Error taxonomy (main.rs lines 22-29) -/

/-- `imap::Error`, reduced to the distinction `main` observes: the negative
server response `No(msg)` versus every other variant. -/
inductive ImapErr where
  | No (msg : String) : ImapErr
  | Other (msg : String) : ImapErr
deriving DecidableEq, Repr

/-- `std::str::Utf8Error`: the position up to which the input was valid. -/
structure Utf8Error where
  valid_up_to : Nat
deriving DecidableEq, Repr

/-- `enum ConnectionError` of main.rs. -/
inductive ConnectionError where
  | ConfigError (msg : String) : ConnectionError
  | ImapError (e : ImapErr) : ConnectionError
  | EncodingError (e : Utf8Error) : ConnectionError
deriving DecidableEq, Repr

instance {ε α : Type} [DecidableEq ε] [DecidableEq α] : DecidableEq (Except ε α)
  | Except.ok a, Except.ok b => decidable_of_iff (a = b) (by simp)
  | Except.ok _, Except.error _ => Decidable.isFalse (by simp)
  | Except.error _, Except.ok _ => Decidable.isFalse (by simp)
  | Except.error e, Except.error f => decidable_of_iff (e = f) (by simp)

/-! ## The IMAP session oracle.
`list_inbox` talks to a network; the network's behaviour for one account is
modelled by the outcome the server gives each session step. `Option.none`
means the step succeeds. -/

/-- Server-side outcomes of the five session steps for one account. -/
structure ImapWorld where
  connect : Option ImapErr
  login : Option ImapErr
  select : Option ImapErr
  fetch : Except ImapErr (List Fetch)
  logout : Option ImapErr
deriving Repr

/-- A session action `list_inbox` may attempt against the network. -/
inductive Act where
  | connect : Act
  | login : Act
  | select : Act
  | fetchAct : Act
  | logout : Act
deriving DecidableEq, Repr

/-- `list_inbox(server)` (main.rs lines 56-113), given the network oracle:
returns the session actions attempted in order, the text written to stdout,
and the `Result`. The TLS check precedes any connection attempt; the
credentials check happens after a successful connect, before login; envelope
output is produced before logout is attempted. -/
def list_inbox (server : Server) (w : ImapWorld) :
    List Act × String × Except ConnectionError Unit :=
  let credentials := server.credentials
  let name := server.name
  let imap := server.imap
  match imap.tls with
  | Option.none =>
      ([], "", Except.error (ConnectionError.ConfigError
        ("No TLS configured for '" ++ name ++ "'")))
  | some _ =>
    match w.connect with
    | some e => ([Act.connect], "", Except.error (ConnectionError.ImapError e))
    | Option.none =>
      match credentials with
      | Credentials.None =>
          ([Act.connect], "", Except.error (ConnectionError.ConfigError
            ("No username and password configured for '\"" ++ name ++ "\"'")))
      | Credentials.UsernameAndPassword _ _ =>
        match w.login with
        | some e =>
            ([Act.connect, Act.login], "", Except.error (ConnectionError.ImapError e))
        | Option.none =>
          match w.select with
          | some e =>
              ([Act.connect, Act.login, Act.select], "",
                Except.error (ConnectionError.ImapError e))
          | Option.none =>
            match w.fetch with
            | Except.error e =>
                ([Act.connect, Act.login, Act.select, Act.fetchAct], "",
                  Except.error (ConnectionError.ImapError e))
            | Except.ok msgs =>
              let out := renderMessages msgs
              match w.logout with
              | some e =>
                  ([Act.connect, Act.login, Act.select, Act.fetchAct, Act.logout],
                    out, Except.error (ConnectionError.ImapError e))
              | Option.none =>
                  ([Act.connect, Act.login, Act.select, Act.fetchAct, Act.logout],
                    out, Except.ok ())

/-- The result component of `list_inbox`. -/
def listInboxResult (server : Server) (w : ImapWorld) : Except ConnectionError Unit :=
  (list_inbox server w).2.2

/-- The stdout component of `list_inbox`. -/
def listInboxOut (server : Server) (w : ImapWorld) : String :=
  (list_inbox server w).2.1

/-- The attempted-actions component of `list_inbox`. -/
def listInboxActs (server : Server) (w : ImapWorld) : List Act :=
  (list_inbox server w).1

/-! ## The per-account loop of `main` (main.rs lines 123-134). -/

/-- Does a `list_inbox` result match the fatal arm
`Err(ConnectionError::ImapError(No(_)))` of the loop in `main`? -/
def isNegative : Except ConnectionError Unit → Bool
  | Except.error (ConnectionError.ImapError (ImapErr.No _)) => true
  | _ => false

/-- The per-account loop of `main` over the configured servers, each paired
with its network oracle: accounts are visited in order; the fatal
negative-response arm calls `exit_with_message(1, ...)`, which terminates the
process, so later accounts are not visited. Returns the per-account reports
`(name, result)` for the accounts actually visited, and `true` when the
process exited early through the negative-response arm. -/
def processAccounts : List (Server × ImapWorld) →
    List (String × Except ConnectionError Unit) × Bool
  | [] => ([], false)
  | p :: rest =>
    let r := listInboxResult p.1 p.2
    if isNegative r then ([(p.1.name, r)], true)
    else
      let tail := processAccounts rest
      ((p.1.name, r) :: tail.1, tail.2)

/-! ## `main` (main.rs lines 115-135), modelled over the outcome of
`Settings::load()` and the per-account network oracles. -/

/-- Observable top-level events of one run of `main`, in order. -/
inductive MainEvent where
  | printedSample : MainEvent
  | accountDone (name : String) : MainEvent
  | accountError (name : String) : MainEvent
  | exited (code : Nat) : MainEvent
deriving DecidableEq, Repr

/-- Events of the per-account reports: a success prints the completion marker,
a failure writes a diagnostic naming no further output. -/
def accountEvents (reports : List (String × Except ConnectionError Unit)) :
    List MainEvent :=
  reports.map fun r =>
    match r.2 with
    | Except.ok _ => MainEvent.accountDone r.1
    | Except.error _ => MainEvent.accountError r.1

/-- `main`: on a failed `Settings::load()` it prints the serialized default
sample configuration to stdout (`Settings::print_default`) and exits with
status 1 via `exit_with_message`; on success it runs the per-account loop,
exiting 1 from inside the loop on a negative server response, otherwise
returning normally (exit status 0). -/
def mainRun (loadResult : Except String (List (Server × ImapWorld))) :
    List MainEvent :=
  match loadResult with
  | Except.error _ => [MainEvent.printedSample, MainEvent.exited 1]
  | Except.ok accounts =>
    let res := processAccounts accounts
    accountEvents res.1 ++ [MainEvent.exited (if res.2 then 1 else 0)]

/-! ## Configuration (de)serialization at the TOML value level.
`Settings::print_default` serializes through `toml::Value::try_from` and
loading parses through the `config` crate; both live outside this repository,
so the shape-based mapping is modelled from the spec (§6 schema, §9
structural disambiguation of `Credentials`). -/

/-- A TOML-like structured value. -/
inductive TomlValue where
  | str (s : String) : TomlValue
  | int (n : Nat) : TomlValue
  | table (entries : List (String × TomlValue)) : TomlValue
  | arr (elems : List TomlValue) : TomlValue

/-- Look up a key in a table's entry list. -/
def lookupEntry (key : String) : List (String × TomlValue) → Option TomlValue
  | [] => Option.none
  | e :: rest => if e.1 = key then some e.2 else lookupEntry key rest

/-- Modelled from the spec: serialization of a `Tls` value
(derived `Serialize`: one `port` field). -/
def serializeTls (t : Tls) : TomlValue :=
  TomlValue.table [("port", TomlValue.int t.port)]

/-- Modelled from the spec: serialization of an `Imap` endpoint; an absent TLS
override serializes to an absent `tls` key (§6 `tls?`). -/
def serializeImap (s : Imap) : TomlValue :=
  TomlValue.table
    ([("host", TomlValue.str s.host), ("port", TomlValue.int s.port)] ++
      (match s.tls with
       | some t => [("tls", serializeTls t)]
       | Option.none => []))

/-- Modelled from the spec: serialization of an `Smtp` endpoint, same shape as
`Imap`. -/
def serializeSmtp (s : Smtp) : TomlValue :=
  TomlValue.table
    ([("host", TomlValue.str s.host), ("port", TomlValue.int s.port)] ++
      (match s.tls with
       | some t => [("tls", serializeTls t)]
       | Option.none => []))

/-- Modelled from the spec: untagged, shape-based serialization of
`Credentials` (§9): `UsernameAndPassword` is the table of its two fields,
`None` the empty table (no username/password keys present). -/
def serializeCredentials : Credentials → TomlValue
  | Credentials.None => TomlValue.table []
  | Credentials.UsernameAndPassword u p =>
      TomlValue.table [("username", TomlValue.str u), ("password", TomlValue.str p)]

/-- Modelled from the spec: serialization of one `Server`. -/
def serializeServer (s : Server) : TomlValue :=
  TomlValue.table
    [("name", TomlValue.str s.name),
     ("smtp", serializeSmtp s.smtp),
     ("imap", serializeImap s.imap),
     ("credentials", serializeCredentials s.credentials)]

/-- Modelled from the spec: serialization of `Settings`
(`skip_serializing_if = Vec::is_empty` on `servers`). -/
def serializeSettings (s : Settings) : TomlValue :=
  match s.servers with
  | [] => TomlValue.table []
  | servers => TomlValue.table [("servers", TomlValue.arr (servers.map serializeServer))]

/-- Modelled from the spec: parsing a TLS override table (§6 `tls?: { port }`). -/
def parseTls : TomlValue → Option Tls
  | TomlValue.table entries =>
    match lookupEntry "port" entries with
    | some (TomlValue.int n) => some { port := n }
    | _ => Option.none
  | _ => Option.none

/-- Modelled from the spec: parsing an IMAP endpoint table; an absent `tls`
key yields no TLS override. -/
def parseImap : TomlValue → Option Imap
  | TomlValue.table entries =>
    match lookupEntry "host" entries, lookupEntry "port" entries with
    | some (TomlValue.str h), some (TomlValue.int n) =>
      match lookupEntry "tls" entries with
      | Option.none => some { host := h, port := n, tls := Option.none }
      | some tv =>
        match parseTls tv with
        | some t => some { host := h, port := n, tls := some t }
        | Option.none => Option.none
    | _, _ => Option.none
  | _ => Option.none

/-- Modelled from the spec: parsing an SMTP endpoint table, same shape. -/
def parseSmtp : TomlValue → Option Smtp
  | TomlValue.table entries =>
    match lookupEntry "host" entries, lookupEntry "port" entries with
    | some (TomlValue.str h), some (TomlValue.int n) =>
      match lookupEntry "tls" entries with
      | Option.none => some { host := h, port := n, tls := Option.none }
      | some tv =>
        match parseTls tv with
        | some t => some { host := h, port := n, tls := some t }
        | Option.none => Option.none
    | _, _ => Option.none
  | _ => Option.none

/-- Modelled from the spec: structural disambiguation of `Credentials` (§9):
both `username` and `password` present selects `UsernameAndPassword`; neither
present selects `None`; a partially specified block is rejected. -/
def parseCredentials : TomlValue → Option Credentials
  | TomlValue.table entries =>
    match lookupEntry "username" entries, lookupEntry "password" entries with
    | some (TomlValue.str u), some (TomlValue.str p) =>
        some (Credentials.UsernameAndPassword u p)
    | Option.none, Option.none => some Credentials.None
    | _, _ => Option.none
  | _ => Option.none

/-- Modelled from the spec: parsing one server table (§6 schema). -/
def parseServer : TomlValue → Option Server
  | TomlValue.table entries =>
    match lookupEntry "name" entries, lookupEntry "smtp" entries,
          lookupEntry "imap" entries, lookupEntry "credentials" entries with
    | some (TomlValue.str n), some smtpV, some imapV, some credV =>
      match parseSmtp smtpV, parseImap imapV, parseCredentials credV with
      | some sm, some im, some cr =>
          some { name := n, smtp := sm, imap := im, credentials := cr }
      | _, _, _ => Option.none
    | _, _, _, _ => Option.none
  | _ => Option.none

/-- Map a parser over a list of values, failing if any element fails. -/
def parseServerList : List TomlValue → Option (List Server)
  | [] => some []
  | v :: rest =>
    match parseServer v, parseServerList rest with
    | some s, some tail => some (s :: tail)
    | _, _ => Option.none

/-- Modelled from the spec: parsing a whole `Settings` document (§6:
`servers: [...]`). -/
def parseSettings : TomlValue → Option Settings
  | TomlValue.table entries =>
    match lookupEntry "servers" entries with
    | some (TomlValue.arr vs) =>
      match parseServerList vs with
      | some servers => some { servers := servers }
      | Option.none => Option.none
    | _ => Option.none
  | _ => Option.none

/-! ## Spec-side description of the per-message output block, for comparison
with the source-derived `renderMessage`. -/

/-- The rendered lines of one envelope, spec-style: one line per populated
address field among From/To/Cc/Bcc, then a Date line and a Subject line when
present and UTF-8-decodable; omitted fields contribute no line. -/
def envelopeLines (e : Envelope) : List String :=
  [e.efrom.map (print_addresses "From: "),
   e.eto.map (print_addresses "To: "),
   e.cc.map (print_addresses "Cc: "),
   e.bcc.map (print_addresses "Bcc: "),
   (e.date.bind from_utf8).map (fun d => "Date: " ++ d ++ "\n"),
   (e.subject.bind from_utf8).map (fun s => "Subject: " ++ s ++ "\n")].filterMap id

/-- Spec-side block for one message: the separator line for every message,
then the envelope's lines when the message carries one. -/
def specBlock (m : Fetch) : String :=
  "---\n" ++ (match m.envelope with
              | some e => String.join (envelopeLines e)
              | Option.none => "")

/-! ## Helper lemmas on the per-account loop. -/

/-- When no visited account yields a negative server response, the loop visits
every account in order and the early-exit flag stays false. -/
theorem processAccounts_all (accounts : List (Server × ImapWorld))
    (h : ∀ p ∈ accounts, isNegative (listInboxResult p.1 p.2) = false) :
    processAccounts accounts =
      (accounts.map (fun p => (p.1.name, listInboxResult p.1 p.2)), false) := by
  induction accounts with
  | nil => rfl
  | cons p rest ih =>
    have hp : isNegative (listInboxResult p.1 p.2) = false := h p (List.mem_cons_self p rest)
    have hrest : ∀ q ∈ rest, isNegative (listInboxResult q.1 q.2) = false :=
      fun q hq => h q (List.mem_cons_of_mem p hq)
    simp [processAccounts, hp, ih hrest]

/-- When the first negative-response account is reached, the loop stops there:
the visited accounts are exactly the earlier ones plus the offending one, and
the early-exit flag is set. -/
theorem processAccounts_halts (pre post : List (Server × ImapWorld))
    (sw : Server × ImapWorld)
    (hpre : ∀ p ∈ pre, isNegative (listInboxResult p.1 p.2) = false)
    (hneg : isNegative (listInboxResult sw.1 sw.2) = true) :
    processAccounts (pre ++ sw :: post) =
      (pre.map (fun p => (p.1.name, listInboxResult p.1 p.2)) ++
        [(sw.1.name, listInboxResult sw.1 sw.2)], true) := by
  induction pre with
  | nil => simp [processAccounts, hneg]
  | cons p rest ih =>
    have hp : isNegative (listInboxResult p.1 p.2) = false := hpre p (List.mem_cons_self p rest)
    have hrest : ∀ q ∈ rest, isNegative (listInboxResult q.1 q.2) = false :=
      fun q hq => hpre q (List.mem_cons_of_mem p hq)
    simp [processAccounts, hp, ih hrest]

/-! ## Claim theorems. -/

/-- Claim C1: for every IMAP endpoint, the effective connection port returned
by `Imap::port()` equals the TLS override's port when the override is present,
and equals the plain `port` field when it is absent. -/
theorem effectivePort_resolution (s : Imap) :
    (∀ t : Tls, s.tls = some t → s.effectivePort = t.port) ∧
    (s.tls = Option.none → s.effectivePort = s.port) := by
  constructor
  · intro t h
    simp [Imap.effectivePort, h]
  · intro h
    simp [Imap.effectivePort, h]

/-- Concrete instantiation of `effectivePort_resolution`. -/
theorem effectivePort_resolution_witness :
    (Imap.mk "example.org" 143 (some (Tls.mk 993))).effectivePort = 993 ∧
    (Imap.mk "example.org" 143 Option.none).effectivePort = 143 :=
  ⟨(effectivePort_resolution (Imap.mk "example.org" 143 (some (Tls.mk 993)))).1
      (Tls.mk 993) rfl,
   (effectivePort_resolution (Imap.mk "example.org" 143 Option.none)).2 rfl⟩

/-- Claim C7: default construction yields account name `"default"`,
credentials `None`, base port 143 and no TLS override; however the source
builds the default IMAP host from `DEFAULT_SERVER_NAME`, so the host is
`"default"`, not the spec's `"localhost"` (which sits unused in
`DEFAULT_SERVER_HOST`). -/
theorem default_construction_values :
    Server.defaultServer.name = "default" ∧
    Server.defaultServer.credentials = Credentials.None ∧
    Imap.defaultImap.port = 143 ∧
    Imap.defaultImap.tls = Option.none ∧
    Imap.defaultImap.host = DEFAULT_SERVER_NAME ∧
    Imap.defaultImap.host = "default" ∧
    DEFAULT_SERVER_HOST = "localhost" :=
  ⟨rfl, rfl, rfl, rfl, rfl, rfl, rfl⟩

/-- Claim C8: `list_inbox` never returns an `EncodingError`, whatever the
account configuration and whatever the network does. -/
theorem encoding_error_unreachable (server : Server) (w : ImapWorld) (e : Utf8Error) :
    listInboxResult server w ≠ Except.error (ConnectionError.EncodingError e) := by
  unfold listInboxResult list_inbox
  rcases htls : server.imap.tls with _ | t
  · simp [htls]
  · rcases hw : w.connect with _ | ce
    · rcases hc : server.credentials with _ | ⟨u, p⟩
      · simp [htls, hw, hc]
      · rcases hl : w.login with _ | le
        · rcases hs : w.select with _ | se
          · rcases hf : w.fetch with fe | msgs
            · simp [htls, hw, hc, hl, hs, hf]
            · rcases ho : w.logout with _ | oe
              · simp [htls, hw, hc, hl, hs, hf, ho]
              · simp [htls, hw, hc, hl, hs, hf, ho]
          · simp [htls, hw, hc, hl, hs]
        · simp [htls, hw, hc, hl]
    · simp [htls, hw]

/-- Claim C9: serializing the default sample configuration and re-parsing the
serialized form yields a `Settings` with exactly one account carrying the
sample literals. -/
theorem sample_roundtrip :
    parseSettings (serializeSettings sampleSettings) = some sampleSettings ∧
    sampleSettings.servers = [sampleServer] ∧
    sampleServer.name = "GMail" ∧
    sampleServer.imap.host = "imap.google.com" ∧
    sampleServer.imap.tls = some (Tls.mk 993) ∧
    sampleServer.credentials = Credentials.UsernameAndPassword "username" "password" := by
  refine ⟨by decide, rfl, rfl, rfl, rfl, rfl⟩

/-- Claim C10: a failed settings load prints the serialized default sample to
stdout and then exits with status 1; a successful load never prints the
sample. -/
theorem sample_printed_iff_load_fails :
    (∀ err : String,
      mainRun (Except.error err) = [MainEvent.printedSample, MainEvent.exited 1]) ∧
    (∀ accounts : List (Server × ImapWorld),
      MainEvent.printedSample ∉ mainRun (Except.ok accounts)) := by
  constructor
  · intro err
    rfl
  · intro accounts hmem
    simp only [mainRun, accountEvents, List.mem_append, List.mem_map,
      List.mem_singleton] at hmem
    rcases hmem with ⟨r, _, hr⟩ | h
    · rcases h2 : r.2 with _ | _ <;> rw [h2] at hr <;> simp at hr
    · simp at h

/-! ### Concrete test fixtures used by witness theorems. -/

/-- Fixture: a network oracle in which every session step succeeds and the
fetch returns an empty batch. -/
def okWorld : ImapWorld :=
  { connect := Option.none, login := Option.none, select := Option.none,
    fetch := Except.ok [], logout := Option.none }

/-- Fixture: an oracle whose connect step fails with the negative server
response. -/
def negWorld : ImapWorld :=
  { connect := some (ImapErr.No "denied"), login := Option.none,
    select := Option.none, fetch := Except.ok [], logout := Option.none }

/-- Fixture: an oracle whose connect step fails with a generic protocol
error. -/
def genWorld : ImapWorld :=
  { connect := some (ImapErr.Other "io failure"), login := Option.none,
    select := Option.none, fetch := Except.ok [], logout := Option.none }

/-- Fixture: a fully configured server. -/
def okServer (nm : String) : Server :=
  { name := nm, smtp := Smtp.defaultSmtp,
    imap := { host := "imap.example.org", port := 143, tls := some { port := 993 } },
    credentials := Credentials.UsernameAndPassword "user" "pass" }

/-- Fixture: a server without a TLS override. -/
def noTlsServer (nm : String) : Server :=
  { name := nm, smtp := Smtp.defaultSmtp, imap := Imap.defaultImap,
    credentials := Credentials.UsernameAndPassword "user" "pass" }

/-- Fixture: a server with TLS configured but `Credentials::None`. -/
def noCredServer (nm : String) : Server :=
  { name := nm, smtp := Smtp.defaultSmtp,
    imap := { host := "imap.example.org", port := 143, tls := some { port := 993 } },
    credentials := Credentials.None }

/-- Claim C2: a structurally incomplete account configuration makes
`list_inbox` fail with a `ConfigError`, never a protocol error: a missing TLS
override fails immediately with a message naming the account, before any
session action is attempted; `Credentials::None` never leads to a login
attempt, and once the connect step has succeeded it fails with a
`ConfigError`. -/
theorem incomplete_config_fails_configuration (server : Server) (w : ImapWorld) :
    (server.imap.tls = Option.none →
      listInboxActs server w = [] ∧
      listInboxResult server w =
        Except.error (ConnectionError.ConfigError
          ("No TLS configured for '" ++ server.name ++ "'"))) ∧
    (server.credentials = Credentials.None →
      Act.login ∉ listInboxActs server w ∧
      (w.connect = Option.none →
        ∃ msg, listInboxResult server w =
          Except.error (ConnectionError.ConfigError msg))) := by
  constructor
  · intro htls
    constructor <;> simp [listInboxActs, listInboxResult, list_inbox, htls]
  · intro hc
    rcases htls : server.imap.tls with _ | t
    · constructor
      · simp [listInboxActs, list_inbox, htls]
      · intro _
        refine ⟨"No TLS configured for '" ++ server.name ++ "'", ?_⟩
        simp [listInboxResult, list_inbox, htls]
    · rcases hw : w.connect with _ | ce
      · constructor
        · simp [listInboxActs, list_inbox, htls, hw, hc]
        · intro _
          refine ⟨"No username and password configured for '\"" ++ server.name ++ "\"'", ?_⟩
          simp [listInboxResult, list_inbox, htls, hw, hc]
      · constructor
        · simp [listInboxActs, list_inbox, htls, hw]
        · intro h
          simp [hw] at h

/-- Concrete instantiation of `incomplete_config_fails_configuration`: a
server without TLS, and a server with TLS but no credentials. -/
theorem incomplete_config_fails_configuration_witness :
    (listInboxActs (noTlsServer "alpha") okWorld = [] ∧
      listInboxResult (noTlsServer "alpha") okWorld =
        Except.error (ConnectionError.ConfigError
          ("No TLS configured for '" ++ (noTlsServer "alpha").name ++ "'"))) ∧
    (Act.login ∉ listInboxActs (noCredServer "beta") okWorld ∧
      (okWorld.connect = Option.none →
        ∃ msg, listInboxResult (noCredServer "beta") okWorld =
          Except.error (ConnectionError.ConfigError msg))) :=
  ⟨(incomplete_config_fails_configuration (noTlsServer "alpha") okWorld).1 rfl,
   (incomplete_config_fails_configuration (noCredServer "beta") okWorld).2 rfl⟩

/-- Claim C3: a negative server response on one account halts the per-account
loop — the visited accounts are exactly those up to and including the
offender — and `main` exits with status 1; when no account yields a negative
response, every account is visited and the run exits with status 0. -/
theorem negative_response_halts_run :
    (∀ (pre post : List (Server × ImapWorld)) (sw : Server × ImapWorld),
      (∀ p ∈ pre, isNegative (listInboxResult p.1 p.2) = false) →
      isNegative (listInboxResult sw.1 sw.2) = true →
      (processAccounts (pre ++ sw :: post)).1 =
        pre.map (fun p => (p.1.name, listInboxResult p.1 p.2)) ++
          [(sw.1.name, listInboxResult sw.1 sw.2)] ∧
      mainRun (Except.ok (pre ++ sw :: post)) =
        accountEvents (pre.map (fun p => (p.1.name, listInboxResult p.1 p.2)) ++
          [(sw.1.name, listInboxResult sw.1 sw.2)]) ++ [MainEvent.exited 1]) ∧
    (∀ accounts : List (Server × ImapWorld),
      (∀ p ∈ accounts, isNegative (listInboxResult p.1 p.2) = false) →
      (processAccounts accounts).1.length = accounts.length ∧
      mainRun (Except.ok accounts) =
        accountEvents (accounts.map (fun p => (p.1.name, listInboxResult p.1 p.2))) ++
          [MainEvent.exited 0]) := by
  constructor
  · intro pre post sw hpre hneg
    have h := processAccounts_halts pre post sw hpre hneg
    constructor
    · rw [h]
    · simp [mainRun, h]
  · intro accounts hall
    have h := processAccounts_all accounts hall
    constructor
    · simp [h]
    · simp [mainRun, h]

/-- Concrete instantiation of `negative_response_halts_run`: of three
accounts the second hits a negative response; the loop stops there and the
run exits 1. -/
theorem negative_response_halts_run_witness :
    ((processAccounts ([(okServer "one", okWorld)] ++
        (okServer "two", negWorld) :: [(okServer "three", okWorld)])).1 =
      [(okServer "one", okWorld)].map (fun p => (p.1.name, listInboxResult p.1 p.2)) ++
        [((okServer "two", negWorld).1.name,
          listInboxResult (okServer "two", negWorld).1 (okServer "two", negWorld).2)] ∧
      mainRun (Except.ok ([(okServer "one", okWorld)] ++
          (okServer "two", negWorld) :: [(okServer "three", okWorld)])) =
        accountEvents
          ([(okServer "one", okWorld)].map (fun p => (p.1.name, listInboxResult p.1 p.2)) ++
            [((okServer "two", negWorld).1.name,
              listInboxResult (okServer "two", negWorld).1 (okServer "two", negWorld).2)]) ++
          [MainEvent.exited 1]) :=
  negative_response_halts_run.1 [(okServer "one", okWorld)]
    [(okServer "three", okWorld)] (okServer "two", negWorld)
    (by decide) (by decide)

/-- Claim C4: accounts are visited strictly in configuration order (the
visited names are a prefix of the configured names), a `ConfigError` on one
account only skips that account, and with three accounts whose second fails
with a generic protocol error, all three are processed and reported in
order. -/
theorem sequential_processing_skips_generic_failures :
    (∀ accounts : List (Server × ImapWorld),
      (processAccounts accounts).1.map Prod.fst =
        (accounts.map (fun p => p.1.name)).take (processAccounts accounts).1.length) ∧
    (∀ (p : Server × ImapWorld) (rest : List (Server × ImapWorld)) (m : String),
      listInboxResult p.1 p.2 = Except.error (ConnectionError.ConfigError m) →
      processAccounts (p :: rest) =
        ((p.1.name, listInboxResult p.1 p.2) :: (processAccounts rest).1,
          (processAccounts rest).2)) ∧
    (∀ (p1 p2 p3 : Server × ImapWorld) (m : String),
      isNegative (listInboxResult p1.1 p1.2) = false →
      listInboxResult p2.1 p2.2 =
        Except.error (ConnectionError.ImapError (ImapErr.Other m)) →
      isNegative (listInboxResult p3.1 p3.2) = false →
      processAccounts [p1, p2, p3] =
        ([(p1.1.name, listInboxResult p1.1 p1.2),
          (p2.1.name, listInboxResult p2.1 p2.2),
          (p3.1.name, listInboxResult p3.1 p3.2)], false)) := by
  refine ⟨?_, ?_, ?_⟩
  · intro accounts
    induction accounts with
    | nil => rfl
    | cons p rest ih =>
      by_cases h : isNegative (listInboxResult p.1 p.2) = true
      · simp [processAccounts, h]
      · have h' : isNegative (listInboxResult p.1 p.2) = false := by
          simpa using h
        simp [processAccounts, h', ih]
  · intro p rest m hres
    have h : isNegative (listInboxResult p.1 p.2) = false := by
      rw [hres]; rfl
    simp [processAccounts, h]
  · intro p1 p2 p3 m h1 h2 h3
    have hn2 : isNegative (listInboxResult p2.1 p2.2) = false := by
      rw [h2]; rfl
    simp [processAccounts, h1, hn2, h3]

/-- Concrete instantiation of
`sequential_processing_skips_generic_failures`: three accounts, the second
failing with a generic protocol error; all three are reported in order. -/
theorem sequential_processing_skips_generic_failures_witness :
    processAccounts [(okServer "a", okWorld), (okServer "b", genWorld),
        (okServer "c", okWorld)] =
      ([((okServer "a", okWorld).1.name,
          listInboxResult (okServer "a", okWorld).1 (okServer "a", okWorld).2),
        ((okServer "b", genWorld).1.name,
          listInboxResult (okServer "b", genWorld).1 (okServer "b", genWorld).2),
        ((okServer "c", okWorld).1.name,
          listInboxResult (okServer "c", okWorld).1 (okServer "c", okWorld).2)],
        false) :=
  sequential_processing_skips_generic_failures.2.2
    (okServer "a", okWorld) (okServer "b", genWorld) (okServer "c", okWorld)
    "io failure" (by decide) (by decide) (by decide)

/-- Claim C5: each address renders as a parenthesized sequence of the four
sub-fields, where an absent or non-UTF-8 sub-field renders as `NIL` and a
present decodable one renders quoted; the all-absent address renders as
`(NIL NIL NIL NIL)` and a mailbox-and-host address as
`(NIL NIL "mailbox" "host")`, each followed by the list separator. -/
theorem address_rendering :
    (∀ a : Address, renderAddress a =
        "(" ++ renderField a.name ++ " " ++ renderField a.adl ++ " " ++
          renderField a.mailbox ++ " " ++ renderField a.host ++ "), ") ∧
    renderField Option.none = "NIL" ∧
    (∀ bytes : List Nat, from_utf8 bytes = Option.none →
        renderField (some bytes) = "NIL") ∧
    (∀ (bytes : List Nat) (s : String), from_utf8 bytes = some s →
        renderField (some bytes) = "\"" ++ s ++ "\"") ∧
    renderAddress (Address.mk Option.none Option.none Option.none Option.none) =
      "(NIL NIL NIL NIL)" ++ ", " ∧
    renderAddress (Address.mk Option.none Option.none
        (some [109, 97, 105, 108, 98, 111, 120]) (some [104, 111, 115, 116])) =
      "(NIL NIL \"mailbox\" \"host\")" ++ ", " := by
  refine ⟨fun a => rfl, rfl, ?_, ?_, by decide, by decide⟩
  · intro bytes h
    simp [renderField, h]
  · intro bytes s h
    simp [renderField, h]

/-- Concrete instantiation of `address_rendering`: an invalid UTF-8 sub-field
renders `NIL`, a decodable one renders quoted. -/
theorem address_rendering_witness :
    renderField (some [255]) = "NIL" ∧
    renderField (some [104, 111, 115, 116]) = "\"" ++ "host" ++ "\"" :=
  ⟨address_rendering.2.2.1 [255] (by decide),
   address_rendering.2.2.2.1 [104, 111, 115, 116] "host" (by decide)⟩

/-- Claim C6 counterexample: the separator line is printed before the
envelope check, so a batch holding one message without an envelope produces
the four-character output "---" plus newline, not the empty output the claim
requires. -/
theorem separator_printed_without_envelope :
    renderMessages [Fetch.mk Option.none] = "---\n" ∧
    (renderMessages [Fetch.mk Option.none]).length = 4 := by
  constructor
  · decide
  · decide

/-- Claim C6 as amended: every message in the batch produces its separator
line; the per-field lines (From/To/Cc/Bcc when populated, then Date and
Subject when present and decodable) are additionally produced exactly for the
messages that have an envelope, and a message without an envelope produces
only the separator line. -/
theorem batch_rendering :
    (∀ m : Fetch, renderMessage m = specBlock m) ∧
    (∀ msgs : List Fetch, renderMessages msgs = String.join (msgs.map specBlock)) ∧
    (∀ m : Fetch, m.envelope = Option.none → renderMessage m = "---\n") := by
  have hjoin : ∀ e : Envelope, renderEnvelope e = String.join (envelopeLines e) := by
    intro e
    rcases e with ⟨d, s, f, t, c, b⟩
    rcases f with _ | fa <;> rcases t with _ | ta <;> rcases c with _ | ca <;>
      rcases b with _ | ba <;>
      rcases hd : d.bind from_utf8 with _ | ds <;>
      rcases hs : s.bind from_utf8 with _ | ss <;>
      · apply String.ext
        simp [renderEnvelope, envelopeLines, String.join_eq, String.data_append, hd, hs]
  have hmsg : ∀ m : Fetch, renderMessage m = specBlock m := by
    intro m
    rcases m with ⟨_ | e⟩
    · rfl
    · simp [renderMessage, specBlock, hjoin]
  refine ⟨hmsg, ?_, ?_⟩
  · intro msgs
    simp only [renderMessages]
    congr 1
    exact List.map_congr_left fun m _ => hmsg m
  · intro m h
    rcases m with ⟨env⟩
    simp only at h
    simp [renderMessage, h]

/-- Concrete instantiation of `batch_rendering`: a message without an
envelope renders as just the separator line. -/
theorem batch_rendering_witness :
    renderMessage (Fetch.mk Option.none) = "---\n" :=
  batch_rendering.2.2 (Fetch.mk Option.none) rfl

/-- Concrete instantiation of `encoding_error_unreachable`. -/
theorem encoding_error_unreachable_witness :
    listInboxResult (okServer "gamma") okWorld ≠
      Except.error (ConnectionError.EncodingError (Utf8Error.mk 0)) :=
  encoding_error_unreachable (okServer "gamma") okWorld (Utf8Error.mk 0)

/-- Concrete instantiation of `sample_printed_iff_load_fails`. -/
theorem sample_printed_iff_load_fails_witness :
    mainRun (Except.error "cannot locate project directories") =
      [MainEvent.printedSample, MainEvent.exited 1] ∧
    MainEvent.printedSample ∉ mainRun (Except.ok [(okServer "delta", okWorld)]) :=
  ⟨sample_printed_iff_load_fails.1 "cannot locate project directories",
   sample_printed_iff_load_fails.2 [(okServer "delta", okWorld)]⟩

end Postkast
